import Mathlib

/-
Verification development for the music-buzzer firmware.

Shallow embedding of src/src/main.cpp (RTTTL and MML parsers, the
per-buzzer melody player, track assignment, the play-command state
machine) and of the generation worker in src/src/main.cpp together with
the generation loop of src/src/mini_gpt.cpp.

Modelling conventions:
  - C strings are List Char; the NUL terminator is the empty list.
  - Machine integers are Nat with an explicit mod where C truncates
    (uint8_t accumulation is mod 256, uint16_t stores are mod 65536).
  - atoi is modelled as the value of the maximal leading digit run
    (the sign and whitespace handling of atoi is not exercised by the
    catalog inputs and is not modelled).
  - Loops that advance a pointer are structural recursions over a fuel
    argument; the top-level wrappers pass (length of the remaining
    input + 1), which is always sufficient because every loop
    iteration of the C code consumes at least one character.
  - An unsigned division whose divisor is zero is undefined behaviour
    in C; the embedding returns none exactly at such a division.
  - Two places where the C notes loop of parseRTTTL would increment
    the pointer past the NUL terminator (an out-of-bounds read) are
    modelled as normal loop exit; no claim depends on them.
-/

namespace MusicBuzzer

/-- Character is an ASCII decimal digit. -/
def isDig (c : Char) : Bool := decide (48 ≤ c.toNat ∧ c.toNat ≤ 57)

/-- Character is an MML/RTTTL note letter a-g or A-G. -/
def isNoteChar (c : Char) : Bool :=
  decide ((97 ≤ c.toNat ∧ c.toNat ≤ 103) ∨ (65 ≤ c.toNat ∧ c.toNat ≤ 71))

/-- Character is an MML rest r or R. -/
def isRestChar (c : Char) : Bool := decide (c = 'r' ∨ c = 'R')

/-- Lower-casing of an ASCII letter; the C code computes c | 0x20, which
agrees with this on the note letters it is applied to. -/
def lowerLetter (c : Char) : Char :=
  if 65 ≤ c.toNat ∧ c.toNat ≤ 90 then Char.ofNat (c.toNat + 32) else c

/-- letterToSemitone from main.cpp lines 94-100. -/
def letterToSemitone (c : Char) : Nat :=
  if c = 'c' then 0 else if c = 'd' then 2 else if c = 'e' then 4
  else if c = 'f' then 5 else if c = 'g' then 7 else if c = 'a' then 9
  else if c = 'b' then 11 else 0

/-- NOTE_FREQS table, main.cpp line 85 (C4..B4). -/
def NOTE_FREQS : List Nat := [262, 277, 294, 311, 330, 349, 370, 392, 415, 440, 466, 494]

/-- noteFreq from main.cpp lines 87-92.  The uint16_t shift result is
taken mod 65536 (for shift amounts at or beyond the promoted int width
the C code is undefined; no catalog octave reaches them). -/
def noteFreq (semitone octave : Nat) : Nat :=
  let f := NOTE_FREQS.getD (semitone % 12) 0
  if 4 < octave then (f * 2 ^ (octave - 4)) % 65536
  else if octave < 4 then f / 2 ^ (4 - octave)
  else f

/-- Scan a maximal run of digits, accumulating acc = acc*10 + digit with
the accumulator reduced mod m at each step (m = 256 for uint8_t
accumulators, 65536 for uint16_t).  Returns the value and the rest. -/
def scanDigits (m : Nat) : List Char → Nat → Nat × List Char
  | [], acc => (acc, [])
  | c :: rest, acc =>
    if isDig c then scanDigits m rest ((acc * 10 + (c.toNat - 48)) % m)
    else (acc, c :: rest)

/-- Skip spaces and commas, main.cpp lines 112 and 125. -/
def skipSC : List Char → List Char
  | [] => []
  | c :: rest => if c = ' ' ∨ c = ',' then skipSC rest else c :: rest

/-- Advance past the first colon (name section of RTTTL, main.cpp
lines 105-107); none if the string has no colon. -/
def afterColon : List Char → Option (List Char)
  | [] => none
  | c :: r => if c = ':' then some r else afterColon r

/-- Result of the RTTTL defaults-section loop. -/
structure RHeader where
  dd : Nat
  oo : Nat
  bpm : Nat
  rest : List Char
deriving DecidableEq, Repr

/-- Defaults-section loop of parseRTTTL, main.cpp lines 111-117.
Faithful to the C control flow: the colon test is the loop condition,
so a colon reached after the space/comma skip is consumed by the final
else branch exactly as in the C code. -/
def defaultsLoop (fuel : Nat) (dd oo bpm : Nat) (l : List Char) : RHeader :=
  match fuel with
  | 0 => ⟨dd, oo, bpm, l⟩
  | fuel + 1 =>
    match l with
    | [] => ⟨dd, oo, bpm, []⟩
    | c :: _ =>
      if c = ':' then ⟨dd, oo, bpm, l⟩ else
      match skipSC l with
      | 'd' :: '=' :: r => let s := scanDigits 256 r 0; defaultsLoop fuel s.1 oo bpm s.2
      | 'o' :: '=' :: r => let s := scanDigits 256 r 0; defaultsLoop fuel dd s.1 bpm s.2
      | 'b' :: '=' :: r => let s := scanDigits 65536 r 0; defaultsLoop fuel dd oo s.1 s.2
      | [] => ⟨dd, oo, bpm, []⟩
      | _ :: r => defaultsLoop fuel dd oo bpm r

/-- Duration of one RTTTL note, main.cpp lines 148-150: divisor =
bpm*dur, a single rounded division, the uint16_t cast (mod 65536), and
the dotted update (ms*3+1)/2 stored back into the uint16_t (mod 65536).
none models the undefined C division when the divisor is zero. -/
def rtttlDur (bpm dur : Nat) (dotted : Bool) : Option Nat :=
  if bpm * dur = 0 then none else
  let ms0 := ((240000 + (bpm * dur) / 2) / (bpm * dur)) % 65536
  some (if dotted then ((ms0 * 3 + 1) / 2) % 65536 else ms0)

/-- Notes loop of parseRTTTL, main.cpp lines 124-155.  Each emitted pair
is (freq, duration_ms). -/
def rtttlNotes (fuel dd oo bpm maxNotes count : Nat) (l : List Char) :
    Option (List (Nat × Nat)) :=
  match fuel with
  | 0 => some []
  | fuel + 1 =>
    match l with
    | [] => some []
    | _ :: _ =>
      if maxNotes ≤ count then some [] else
      match skipSC l with
      | [] => some []
      | c1 :: r1 =>
        let s2 := scanDigits 256 (c1 :: r1) 0
        let dur := if s2.1 = 0 then dd else s2.1
        match s2.2 with
        | [] => some []
        | c :: l3 =>
          let fr : Option (Nat × List Char) :=
            if c = 'p' ∨ c = 'P' then some (0, l3)
            else if isNoteChar c then
              let semi := letterToSemitone (lowerLetter c)
              let a1 : Nat × List Char :=
                match l3 with
                | '#' :: r => ((semi + 1) % 256, r)
                | '_' :: r => ((semi + 1) % 256, r)
                | _ => (semi, l3)
              let a2 : Nat × List Char :=
                match a1.2 with
                | d :: r => if isDig d then (d.toNat - 48, r) else (oo, d :: r)
                | [] => (oo, [])
              some (noteFreq a1.1 a2.1, a2.2)
            else none
          match fr with
          | none => rtttlNotes fuel dd oo bpm maxNotes count l3
          | some (freq, l5) =>
            let dotp : Bool × List Char :=
              match l5 with
              | '.' :: r => (true, r)
              | _ => (false, l5)
            match rtttlDur bpm dur dotp.1 with
            | none => none
            | some ms =>
              match rtttlNotes fuel dd oo bpm maxNotes (count + 1) dotp.2 with
              | none => none
              | some out => some ((freq, ms) :: out)

/-- parseRTTTL from main.cpp lines 103-157. -/
def parseRTTTL (s : List Char) (maxNotes : Nat) : Option (List (Nat × Nat)) :=
  match afterColon s with
  | none => some []
  | some p1 =>
    let h := defaultsLoop (p1.length + 1) 4 6 63 p1
    match h.rest with
    | ':' :: p2 =>
      rtttlNotes (p2.length + 1) h.dd h.oo (if h.bpm = 0 then 63 else h.bpm)
        maxNotes 0 p2
    | _ => some []

/-- MAX_NOTES_PER_SONG from include/config.h line 30. -/
def MAX_NOTES_PER_SONG : Nat := 256

/-- Take the current track segment: characters up to the next comma
(main.cpp lines 196-197 and 172-173). -/
def upToComma (l : List Char) : List Char := l.takeWhile (fun c => c != ',')

/-- Drop through the first comma; none when there is no comma. -/
def afterCommaM : List Char → Option (List Char)
  | [] => none
  | c :: r => if c = ',' then some r else afterCommaM r

/-- Select the track with the given index from the MML body, mirroring
the track-skipping loop of parseMML (main.cpp lines 189-194): none when
the body has fewer commas than the requested track index. -/
def nthTrack : Nat → List Char → Option (List Char)
  | 0, l => some (upToComma l)
  | n + 1, l =>
    match afterCommaM l with
    | none => none
    | some r => nthTrack n r

/-- Preamble scan of track 0 for the initial tempo, main.cpp lines
168-187: walk up to the first note or rest, recording the last t
directive with a positive value (uint16_t accumulator). -/
def scanInitTempo (fuel : Nat) (acc : Nat) (l : List Char) : Nat :=
  match fuel with
  | 0 => acc
  | fuel + 1 =>
    match l with
    | [] => acc
    | c :: rest =>
      if isNoteChar c ∨ isRestChar c then acc
      else if c = 't' ∨ c = 'T' then
        let s := scanDigits 65536 rest 0
        scanInitTempo fuel (if 0 < s.1 then s.1 else acc) s.2
      else scanInitTempo fuel acc rest

/-- Duration of one MML note or tie component, main.cpp lines 257-261
and 274-276: divisor = tempo*length, a single rounded division in
uint32_t, and the dotted update, all exact in Nat at these magnitudes.
none models the undefined C division when the divisor is zero. -/
def mmlDur (tempo len : Nat) (dotted : Bool) : Option Nat :=
  if tempo * len = 0 then none else
  let ms := (240000 + (tempo * len) / 2) / (tempo * len)
  some (if dotted then (ms * 3 + 1) / 2 else ms)

/-- Tie loop of parseMML, main.cpp lines 263-278: each & consumes an
optional note letter (with optional accidental) or rest, an optional
length (uint8_t), an optional dot, and adds the component duration. -/
def tieLoop (fuel : Nat) (tempo defLen : Nat) (ms : Nat) (l : List Char) :
    Option (Nat × List Char) :=
  match fuel with
  | 0 => some (ms, l)
  | fuel + 1 =>
    match l with
    | [] => some (ms, [])
    | c :: r =>
      if c = '&' then
        let r1 : List Char :=
          match r with
          | c2 :: r2 =>
            if isNoteChar c2 then
              match r2 with
              | a :: r3 => if a = '+' ∨ a = '#' ∨ a = '-' then r3 else a :: r3
              | [] => []
            else if isRestChar c2 then r2
            else c2 :: r2
          | [] => []
        let s := scanDigits 256 r1 0
        let tieLen := if s.1 = 0 then defLen else s.1
        let dotp : Bool × List Char :=
          match s.2 with
          | c3 :: r4 => if c3 = '.' then (true, r4) else (false, c3 :: r4)
          | [] => (false, [])
        match mmlDur tempo tieLen dotp.1 with
        | none => none
        | some tms => tieLoop fuel tempo defLen (ms + tms) dotp.2
      else some (ms, c :: r)

/-- One note or rest of parseMML, main.cpp lines 241-283: the head
character c has already been consumed; handles the accidental, the
length denominator (uint8_t), the dot, the tie chain, and the final
clamp of the summed duration to 65535. -/
def mmlNote (fuel : Nat) (oct defLen tempo : Nat) (c : Char) (rest : List Char) :
    Option ((Nat × Nat) × List Char) :=
  let frl : Nat × List Char :=
    if isNoteChar c then
      let semi := letterToSemitone (lowerLetter c)
      match rest with
      | '+' :: r => (noteFreq ((semi + 1) % 256) oct, r)
      | '#' :: r => (noteFreq ((semi + 1) % 256) oct, r)
      | '-' :: r => (noteFreq ((semi + 255) % 256) oct, r)
      | _ => (noteFreq semi oct, rest)
    else (0, rest)
  let s := scanDigits 256 frl.2 0
  let len := if s.1 = 0 then defLen else s.1
  let dotp : Bool × List Char :=
    match s.2 with
    | '.' :: r => (true, r)
    | _ => (false, s.2)
  match mmlDur tempo len dotp.1 with
  | none => none
  | some ms1 =>
    match tieLoop fuel tempo defLen ms1 dotp.2 with
    | none => none
    | some (msT, l4) =>
      some ((frl.1, if 65535 < msT then 65535 else msT), l4)

/-- Main per-track loop of parseMML, main.cpp lines 199-285.  State:
octave (uint8_t, starts 4), default length (uint8_t, starts 4), tempo
(uint16_t, starts at the preamble tempo), note count. -/
def mmlLoop (fuel : Nat) (oct defLen tempo count maxNotes : Nat) (l : List Char) :
    Option (List (Nat × Nat)) :=
  match fuel with
  | 0 => some []
  | fuel + 1 =>
    match l with
    | [] => some []
    | c :: rest =>
      if maxNotes ≤ count then some [] else
      if c = 't' ∨ c = 'T' then
        let s := scanDigits 65536 rest 0
        mmlLoop fuel oct defLen (if 0 < s.1 then s.1 else tempo) count maxNotes s.2
      else if c = 'l' ∨ c = 'L' then
        let s := scanDigits 256 rest 0
        mmlLoop fuel oct (if 0 < s.1 then s.1 else defLen) tempo count maxNotes s.2
      else if c = 'o' ∨ c = 'O' then
        let s := scanDigits 256 rest 0
        mmlLoop fuel s.1 defLen tempo count maxNotes s.2
      else if c = '>' then mmlLoop fuel ((oct + 1) % 256) defLen tempo count maxNotes rest
      else if c = '<' then mmlLoop fuel ((oct + 255) % 256) defLen tempo count maxNotes rest
      else if c = 'v' ∨ c = 'V' then
        let s := scanDigits 256 rest 0
        mmlLoop fuel oct defLen tempo count maxNotes s.2
      else if isNoteChar c ∨ isRestChar c then
        match mmlNote fuel oct defLen tempo c rest with
        | none => none
        | some (note, l4) =>
          match mmlLoop fuel oct defLen tempo (count + 1) maxNotes l4 with
          | none => none
          | some out => some (note :: out)
      else mmlLoop fuel oct defLen tempo count maxNotes rest

/-- parseMML from main.cpp lines 160-286. -/
def parseMML (s : List Char) (maxNotes track : Nat) : Option (List (Nat × Nat)) :=
  let p := if s.take 4 = ("MML@").toList then s.drop 4 else s
  let body := p.takeWhile (fun c => c != ';')
  let t0 := upToComma body
  let initTempo := scanInitTempo (t0.length + 1) 120 t0
  match nthTrack track body with
  | none => some []
  | some tr => mmlLoop (tr.length + 1) 4 4 initTempo 0 maxNotes tr

/-- MelodyPlayer from main.cpp lines 443-455.  The melody pointer is an
Option (none models the null pointer); buzzerPin and ledcChannel are
identified with the position of the player in the players list and are
not carried as fields. -/
structure PlayerS where
  melody : Option (List (Nat × Nat))
  length : Nat
  noteIndex : Nat
  noteStartedAt : Nat
  gapDuration : Nat
  playing : Bool
  inGap : Bool
  inLoopPause : Bool
  octaveShift : Int
deriving DecidableEq, Repr

/-- BuzzerPWM from main.cpp lines 43-47. -/
structure PWMS where
  phase : Nat
  phaseInc : Nat
  dutyOn : Nat
deriving DecidableEq, Repr

/-- Zero-initialized MelodyPlayer (file-scope array, main.cpp line 457). -/
def initPlayer : PlayerS :=
  { melody := none, length := 0, noteIndex := 0, noteStartedAt := 0,
    gapDuration := 0, playing := false, inGap := false, inLoopPause := false,
    octaveShift := 0 }

/-- Zero-initialized BuzzerPWM (main.cpp line 48). -/
def initPWM : PWMS := { phase := 0, phaseInc := 0, dutyOn := 0 }

/-- The note of the assigned melody at the player note index; the C code
dereferences p.melody[p.noteIndex] blindly, the invariant proved below
keeps the access in bounds whenever it is reached. -/
def melodyAt (p : PlayerS) : Nat × Nat := (p.melody.getD []).getD p.noteIndex (0, 0)

/-- Octave shift applied to a frequency, main.cpp lines 466-467: a
uint16_t left shift (mod 65536) for a positive shift, a right shift for
a negative one. -/
def shiftFreq (shift : Int) (f : Nat) : Nat :=
  if 0 < shift then (f * 2 ^ shift.toNat) % 65536
  else if shift < 0 then f / 2 ^ (-shift).toNat
  else f

/-- Frequency clamp to the usable buzzer range, main.cpp lines 470-471. -/
def clampFreq (f : Nat) : Nat :=
  let f1 := if f < 65 then 65 else f
  if 4000 < f1 then 4000 else f1

/-- SAMPLE_RATE_HZ from main.cpp line 40. -/
def SAMPLE_RATE_HZ : Nat := 40000

/-- setupNote from main.cpp lines 461-485, acting on the player and its
PWM channel; volumePercent is passed explicitly. -/
def setupNote (vol : Nat) (p : PlayerS) (w : PWMS) : PlayerS × PWMS :=
  let freq := (melodyAt p).1
  let duration := (melodyAt p).2
  if 0 < freq then
    let f2 := clampFreq (shiftFreq p.octaveShift freq)
    let w2 : PWMS :=
      { phase := 0, phaseInc := f2 * 4294967296 / SAMPLE_RATE_HZ,
        dutyOn := vol * 512 / 100 }
    let g0 := duration / 10
    let g1 := if g0 < 20 then 20 else g0
    let g2 := if duration ≤ g1 then 0 else g1
    ({ p with gapDuration := g2, inGap := false }, w2)
  else
    ({ p with gapDuration := 0, inGap := false }, { w with phaseInc := 0 })

/-- advanceNote from main.cpp lines 487-497. -/
def advanceNote (vol : Nat) (p : PlayerS) (w : PWMS) : PlayerS × PWMS :=
  let p1 := { p with noteIndex := p.noteIndex + 1 }
  if p.length ≤ p1.noteIndex then
    ({ p1 with inLoopPause := true }, { w with dutyOn := 0 })
  else setupNote vol p1 w

/-- Gap-silencing step of updatePlayer, main.cpp lines 503-510: when
the tone portion of the note has elapsed, enter the gap and silence the
channel via the duty cycle. -/
def gapSilence (now : Nat) (p : PlayerS) (w : PWMS) : PlayerS × PWMS :=
  let elapsed := now - p.noteStartedAt
  let duration := (melodyAt p).2
  let toneDuration := if 0 < p.gapDuration then duration - p.gapDuration else duration
  if !p.inGap ∧ 0 < p.gapDuration ∧ toneDuration ≤ elapsed then
    ({ p with inGap := true }, { w with dutyOn := 0 })
  else (p, w)

/-- updatePlayer from main.cpp lines 499-517.  millis() is the now
argument; elapsed uses Nat subtraction, which agrees with the unsigned
C subtraction because noteStartedAt never exceeds now along the
modelled transitions. -/
def updatePlayer (vol now : Nat) (p : PlayerS) (w : PWMS) : PlayerS × PWMS :=
  if !p.playing || p.inLoopPause then (p, w) else
  let pw1 := gapSilence now p w
  if (melodyAt p).2 ≤ now - p.noteStartedAt then
    advanceNote vol { pw1.1 with noteStartedAt := pw1.1.noteStartedAt + (melodyAt p).2 } pw1.2
  else pw1

/-- Synchronized loop restart of one player, from the main loop
(main.cpp lines 1381-1389). -/
def restartPlayer (vol now : Nat) (p : PlayerS) (w : PWMS) : PlayerS × PWMS :=
  setupNote vol { p with noteIndex := 0, inLoopPause := false, noteStartedAt := now } w

/-- TrackData from main.cpp lines 289-292 (notes pointer and count). -/
structure TrackData where
  notes : Option (List (Nat × Nat))
  length : Nat
deriving DecidableEq, Repr

/-- Non-empty track test used throughout assignTracks (main.cpp lines
523 and 550): non-null notes pointer and positive length. -/
def trackNonEmpty (t : TrackData) : Bool := t.notes.isSome && decide (0 < t.length)

/-- Reset of one player at the top of assignTracks, main.cpp
lines 526-534. -/
def resetPlayer (p : PlayerS) : PlayerS :=
  { p with octaveShift := 0, melody := none, length := 0, playing := false }

/-- Octave-spread table for single-track songs, main.cpp line 541. -/
def monoShift : Nat → Int
  | 0 => 0
  | 1 => 1
  | _ => -1

/-- Single-track assignment, main.cpp lines 538-546: players 0..2 all
receive track 0 of the song with the octave-spread shifts. -/
def assignMono (t0 : TrackData) (i : Nat) : List (PlayerS × PWMS) → List (PlayerS × PWMS)
  | [] => []
  | pw :: rest =>
    (if i < 3 then
      ({ pw.1 with melody := t0.notes, length := t0.length, octaveShift := monoShift i }, pw.2)
     else pw) :: assignMono t0 (i + 1) rest

/-- Multi-track assignment, main.cpp lines 548-557: non-empty tracks are
mapped to players in order with shift 0. -/
def assignMulti : List TrackData → List (PlayerS × PWMS) → List (PlayerS × PWMS)
  | _, [] => []
  | [], pws => pws
  | t :: ts, pw :: rest =>
    ({ pw.1 with melody := t.notes, length := t.length, octaveShift := 0 }, pw.2)
      :: assignMulti ts rest

/-- Start loop of assignTracks, main.cpp lines 560-571: players holding
a non-null melody with positive length are started at the shared
startTime and get their first note configured. -/
def startPlayer (startTime vol : Nat) (pw : PlayerS × PWMS) : PlayerS × PWMS :=
  if pw.1.melody.isSome ∧ 0 < pw.1.length then
    setupNote vol
      { pw.1 with noteIndex := 0, playing := true, inGap := false,
                  inLoopPause := false, noteStartedAt := startTime } pw.2
  else pw

/-- assignTracks from main.cpp lines 520-583 (pin modes and the timer
enable are hardware effects outside the model).  prev is the current
players array (the C code reuses the globals); startTime is the single
millis() read of line 560. -/
def assignTracks (prev : List (PlayerS × PWMS)) (tracks : List TrackData)
    (startTime vol : Nat) : List (PlayerS × PWMS) :=
  let ps0 := prev.map (fun pw => (resetPlayer pw.1, pw.2))
  let available := (tracks.filter trackNonEmpty).length
  let ps1 :=
    if available = 0 then ps0
    else if available = 1 then assignMono (tracks.headD ⟨none, 0⟩) 0 ps0
    else assignMulti (tracks.filter trackNonEmpty) ps0
  if available = 0 then ps0 else ps1.map (startPlayer startTime vol)

/-- Song format tag from songs.h (values used by main.cpp). -/
inductive SongFmt
  | rtttl
  | mml
deriving DecidableEq, Repr

/-- Playback state, main.cpp line 10. -/
inductive CState
  | idle
  | playing
deriving DecidableEq, Repr

/-- SongEntry from main.cpp lines 294-301; the raw text is carried
inline (progmemStr points into read-only storage). -/
structure SongE where
  raw : List Char
  fmt : SongFmt
  trackCount : Nat
  parsed : Bool
  tracks : List TrackData
deriving DecidableEq, Repr

/-- Placeholder entry used for out-of-range list reads. -/
def dfltSong : SongE := { raw := [], fmt := SongFmt.rtttl, trackCount := 1, parsed := false, tracks := [] }

/-- Replace the element at an index of a list (in-place array write). -/
def listSet {α : Type} : List α → Nat → α → List α
  | [], _, _ => []
  | _ :: r, 0, a => a :: r
  | x :: r, n + 1, a => x :: listSet r n a

/-- freeSongTracks from main.cpp lines 322-332. -/
def freeSongTracks (s : SongE) : SongE :=
  if s.parsed then
    { s with tracks := s.tracks.map (fun _ => (⟨none, 0⟩ : TrackData)), parsed := false }
  else s

/-- Scratch string buffer size, main.cpp line 339. -/
def STR_BUF_SZ : Nat := 6144

/-- MML track materialization loop of parseSongTracks (main.cpp lines
368-385) for track indices t, t+1, ..., t+k-1; per-track note-array
allocation is assumed to succeed (its failure leaves an empty slot and
is not separately modelled). -/
def mmlTracksFrom (raw : List Char) (t : Nat) : Nat → Option (List TrackData)
  | 0 => some []
  | k + 1 =>
    match parseMML raw MAX_NOTES_PER_SONG t with
    | none => none
    | some notes =>
      match mmlTracksFrom raw (t + 1) k with
      | none => none
      | some rest =>
        some ((if notes.length = 0 then (⟨none, 0⟩ : TrackData)
               else ⟨some notes, notes.length⟩) :: rest)

/-- parseSongTracks from main.cpp lines 334-402 acting on one entry.
allocOk is the oracle for the scratch allocations (lines 340 and 354);
maxTracks is MAX_TRACKS from songs.h (not in the tree).  Returns the
success flag and the updated entry; none marks the undefined division
of a zero-divisor parse. -/
def parseSongTracks (maxTracks : Nat) (allocOk : Bool) (s : SongE) :
    Option (Bool × SongE) :=
  if s.parsed then some (true, s) else
  if allocOk = false then some (false, s) else
  if STR_BUF_SZ ≤ s.raw.length then some (false, s) else
  match s.fmt with
  | SongFmt.rtttl =>
    match parseRTTTL s.raw MAX_NOTES_PER_SONG with
    | none => none
    | some notes =>
      if notes.length = 0 then some (false, s)
      else some (true, { s with
        parsed := true,
        tracks := ((⟨some notes, notes.length⟩ : TrackData)
                    :: List.replicate (maxTracks - 1) (⟨none, 0⟩ : TrackData)) })
  | SongFmt.mml =>
    let ttp := min s.trackCount maxTracks
    match mmlTracksFrom s.raw 0 ttp with
    | none => none
    | some ts =>
      some (true, { s with
        parsed := true,
        tracks := (ts ++ List.replicate (maxTracks - ttp) (⟨none, 0⟩ : TrackData)) })

/-- Bound-checked catalog parse (the songIdx >= SONG_COUNT guard of
main.cpp line 335, plus the write-back into the songs array). -/
def parseSongCatalog (maxTracks : Nat) (allocOk : Bool) (songs : List SongE)
    (idx : Nat) : Option (Bool × List SongE) :=
  if songs.length ≤ idx then some (false, songs) else
  match parseSongTracks maxTracks allocOk (songs.getD idx dfltSong) with
  | none => none
  | some (ok, s2) => some (ok, listSet songs idx s2)

/-- Control-plane state: the globals of main.cpp lines 10-14 and
457-458 that the play path touches.  WebSocket broadcasts are not
modelled (enterState in the PLAYING case reads
songs[currentSongIndex].name, which is out of bounds when
currentSongIndex is -1). -/
structure Ctl where
  st : CState
  stateEnteredAt : Nat
  currentSongIndex : Int
  songs : List SongE
  players : List (PlayerS × PWMS)
  volumePercent : Nat
deriving DecidableEq, Repr

/-- stopAllBuzzers from main.cpp lines 585-603 (players and PWM state;
pin modes are hardware effects outside the model). -/
def stopAllBuzzersL (ps : List (PlayerS × PWMS)) : List (PlayerS × PWMS) :=
  ps.map (fun pw => ({ pw.1 with playing := false },
                     ({ phase := 0, phaseInc := 0, dutyOn := 0 } : PWMS)))

/-- anyPlayerActive from main.cpp lines 613-618. -/
def anyPlayerActiveL (ps : List (PlayerS × PWMS)) : Bool :=
  ps.any (fun pw => pw.1.playing)

/-- allPlayersInLoopPause from main.cpp lines 605-611. -/
def allPlayersInLoopPauseL (ps : List (PlayerS × PWMS)) : Bool :=
  ps.all (fun pw => !pw.1.playing || pw.1.inLoopPause)

/-- enterState from main.cpp lines 1094-1111 (state fields and buzzer
shutdown; the broadcasts are not modelled). -/
def enterState (now : Nat) (s : CState) (c : Ctl) : Ctl :=
  let c1 := { c with st := s, stateEnteredAt := now }
  match s with
  | CState.idle => { c1 with players := stopAllBuzzersL c1.players }
  | CState.playing => c1

/-- startSong from main.cpp lines 1071-1092: evict the previous song,
parse the requested one; on success install the index and assign
tracks, on failure return with no further effect (the caller still
enters PLAYING). -/
def startSong (maxTracks : Nat) (allocOk : Bool) (now : Nat) (c : Ctl)
    (index : Nat) : Option Ctl :=
  let c1 :=
    if 0 ≤ c.currentSongIndex ∧ c.currentSongIndex < (c.songs.length : Int) then
      { c with songs := (listSet c.songs c.currentSongIndex.toNat
          (freeSongTracks (c.songs.getD c.currentSongIndex.toNat dfltSong))) }
    else c
  match parseSongCatalog maxTracks allocOk c1.songs index with
  | none => none
  | some (false, songs2) => some { c1 with songs := songs2 }
  | some (true, songs2) =>
    some { c1 with
           songs := songs2,
           currentSongIndex := (index : Int),
           players := (assignTracks c1.players ((songs2.getD index dfltSong).tracks)
                        now c1.volumePercent) }

/-- The play:(index) branch of onWsEvent, main.cpp lines 1141-1153:
for an in-range index, optionally reset the settle timer and stop the
buzzers, then startSong followed unconditionally by
enterState(PLAYING). -/
def handlePlay (maxTracks : Nat) (allocOk : Bool) (now : Nat) (c : Ctl)
    (idx : Nat) : Option Ctl :=
  if idx < c.songs.length then
    let c1 :=
      if c.st = CState.playing then
        { c with stateEnteredAt := now, players := stopAllBuzzersL c.players }
      else c
    match startSong maxTracks allocOk now c1 idx with
    | none => none
    | some c2 => some (enterState now CState.playing c2)
  else some c

/-- STATE_SETTLE_MS from include/config.h line 28. -/
def STATE_SETTLE_MS : Nat := 200

/-- Playback portion of loop(), main.cpp lines 1356-1398: update all
players, synchronized loop restart when every active player is in loop
pause, auto-stop when no player is active and the settle window has
elapsed. -/
def loopTick (now : Nat) (c : Ctl) : Ctl :=
  let c1 := { c with players :=
    (c.players.map (fun pw => updatePlayer c.volumePercent now pw.1 pw.2)) }
  let c2 :=
    if c1.st = CState.playing ∧ anyPlayerActiveL c1.players
        ∧ allPlayersInLoopPauseL c1.players then
      { c1 with players := (c1.players.map (fun pw =>
          if pw.1.playing then restartPlayer c1.volumePercent now pw.1 pw.2 else pw)) }
    else c1
  if c2.st = CState.playing ∧ ¬ anyPlayerActiveL c2.players
      ∧ STATE_SETTLE_MS ≤ now - c2.stateEnteredAt then
    enterState now CState.idle c2
  else c2

/-- WebSocket frames queued by the generation worker (main.cpp lines
625-737); the payload of a streaming frame is the token text. -/
inductive GenMsg
  | start
  | tok (s : String)
  | done (s : String)
  | errAborted
  | errFailed
  | errLowMem
deriving DecidableEq, Repr

/-- streamCallback from main.cpp lines 625-630: once genAbort is
observed true the callback queues nothing.  The abort flag is an
external schedule indexed by callback event number; it is monotone in
a real run because gen:stop only sets it and it is cleared only when a
new generation starts, which the generating flag excludes. -/
def streamCallback (abort : Nat → Bool) (i : Nat) (t : String) : List GenMsg :=
  if abort i then [] else [GenMsg.tok t]

/-- Generation loop of gpt_generate, mini_gpt.cpp lines 610-657,
abstracted over the sequence of sampled (non-EOS/PAD) token texts: per
token the result grows, the callback fires, and one forward step runs.
The loop condition (line 610) does not consult the abort flag, so the
returned step count is always the full token count.  Returns (result
text appended to the prompt, queued frames, forward steps). -/
def gptGenerateLoop (abort : Nat → Bool) (i : Nat) :
    List String → String × List GenMsg × Nat
  | [] => ("", [], 0)
  | t :: rest =>
    let r := gptGenerateLoop abort (i + 1) rest
    (t ++ r.1, streamCallback abort i t ++ r.2.1, r.2.2 + 1)

/-- gpt_generate from mini_gpt.cpp lines 552-668 for the fixed prompt
MML@ used by genTask (prompt forward steps are not counted). -/
def gptGenerate (abort : Nat → Bool) (tokens : List String) :
    String × List GenMsg × Nat :=
  let r := gptGenerateLoop abort 0 tokens
  ("MML@" ++ r.1, r.2.1, r.2.2)

/-- genTask from main.cpp lines 704-737: the PSRAM check, gen:start,
the generation call, then either gen:done plus the hand-off of the MML
buffer to the result queue (playback), or the error frame chosen by the
abort flag as read after generation (event index = token count).
mallocOk is the oracle for the output-string allocation of
mini_gpt.cpp line 662.  Returns (queued frames, whether the MML was
enqueued for playback). -/
def genTask (psramOk mallocOk : Bool) (abort : Nat → Bool) (tokens : List String) :
    List GenMsg × Bool :=
  if psramOk = false then ([GenMsg.errLowMem], false) else
  let r := gptGenerate abort tokens
  let msgs := GenMsg.start :: r.2.1
  if mallocOk ∧ abort r.2.2 = false then
    (msgs ++ [GenMsg.done r.1], true)
  else
    (msgs ++ [if abort r.2.2 then GenMsg.errAborted else GenMsg.errFailed], false)

/-- Rounded duration division as the specification states it:
ms = (240000 + divisor/2) / divisor. -/
def specRoundDiv (divisor : Nat) : Nat := (240000 + divisor / 2) / divisor

/-- Dotted-note update as the specification states it:
ms becomes (ms*3 + 1) / 2. -/
def specDot (ms : Nat) : Nat := (ms * 3 + 1) / 2

/-- The four zero-initialized players of a fresh boot (NUM_BUZZERS = 4,
include/config.h line 18). -/
def initPlayers4 : List (PlayerS × PWMS) := List.replicate 4 (initPlayer, initPWM)

/-- A catalog entry whose RTTTL text has no colon, so parseRTTTL yields
zero notes and parseSongTracks fails. -/
def c1BadSong : SongE :=
  { raw := ("x").toList, fmt := SongFmt.rtttl, trackCount := 1, parsed := false,
    tracks := List.replicate 4 (⟨none, 0⟩ : TrackData) }

/-- Fresh-boot control state: IDLE, no current song, one (malformed)
catalog entry. -/
def c1Start : Ctl :=
  { st := CState.idle, stateEnteredAt := 0, currentSongIndex := -1,
    songs := [c1BadSong], players := initPlayers4, volumePercent := 20 }

/-- A PLAYING control state whose players come from assignTracks on a
two-track song: track 0 has one 100 ms note, track 1 has two. -/
def c3TwoTrackCtl : Ctl :=
  { st := CState.playing, stateEnteredAt := 0, currentSongIndex := 0,
    songs := [], volumePercent := 20,
    players := (assignTracks initPlayers4
      [⟨some [(262, 100)], 1⟩, ⟨some [(262, 100), (330, 100)], 2⟩] 0 20) }

/-- One-note player: a 100 Hz tone lasting exactly 20 ms. -/
def c6Player : PlayerS :=
  { initPlayer with melody := some [(100, 20)], length := 1 }

/-- One-note player: a 100 Hz tone lasting 250 ms. -/
def c6PlayerLong : PlayerS :=
  { initPlayer with melody := some [(100, 250)], length := 1 }

/-- One-note player with octave shift +1 on a 262 Hz note. -/
def c8Player : PlayerS :=
  { initPlayer with melody := some [(262, 100)], length := 1, octaveShift := 1 }

/-- Per-player invariant: an active player has a positive length, and
while it is not in loop pause its note index is in bounds. -/
def Pinv (pw : PlayerS × PWMS) : Prop :=
  pw.1.playing = true →
    0 < pw.1.length ∧ (pw.1.inLoopPause = false → pw.1.noteIndex < pw.1.length)

/-- Reachable player states: produced by assignTracks and closed under
the two main-loop operations on a player, updatePlayer (every loop
iteration) and the synchronized restart.  The restart is admitted here
for any single player, which over-approximates the main loop (it only
restarts when every active player is paused). -/
inductive PReach : PlayerS × PWMS → Prop
  | assigned (prev : List (PlayerS × PWMS)) (tracks : List TrackData)
      (startTime vol i : Nat) :
      PReach ((assignTracks prev tracks startTime vol).getD i (initPlayer, initPWM))
  | update (vol now : Nat) {pw : PlayerS × PWMS} :
      PReach pw → PReach (updatePlayer vol now pw.1 pw.2)
  | restart (vol now : Nat) {pw : PlayerS × PWMS} :
      PReach pw → PReach (restartPlayer vol now pw.1 pw.2)

section Lemmas

@[simp]
lemma setupNote_playing (vol : Nat) (p : PlayerS) (w : PWMS) :
    ((setupNote vol p w).1).playing = p.playing := by
  unfold setupNote; dsimp only; split <;> rfl

@[simp]
lemma setupNote_noteIndex (vol : Nat) (p : PlayerS) (w : PWMS) :
    ((setupNote vol p w).1).noteIndex = p.noteIndex := by
  unfold setupNote; dsimp only; split <;> rfl

@[simp]
lemma setupNote_length (vol : Nat) (p : PlayerS) (w : PWMS) :
    ((setupNote vol p w).1).length = p.length := by
  unfold setupNote; dsimp only; split <;> rfl

@[simp]
lemma setupNote_inLoopPause (vol : Nat) (p : PlayerS) (w : PWMS) :
    ((setupNote vol p w).1).inLoopPause = p.inLoopPause := by
  unfold setupNote; dsimp only; split <;> rfl

@[simp]
lemma setupNote_melody (vol : Nat) (p : PlayerS) (w : PWMS) :
    ((setupNote vol p w).1).melody = p.melody := by
  unfold setupNote; dsimp only; split <;> rfl

@[simp]
lemma setupNote_octaveShift (vol : Nat) (p : PlayerS) (w : PWMS) :
    ((setupNote vol p w).1).octaveShift = p.octaveShift := by
  unfold setupNote; dsimp only; split <;> rfl

@[simp]
lemma setupNote_noteStartedAt (vol : Nat) (p : PlayerS) (w : PWMS) :
    ((setupNote vol p w).1).noteStartedAt = p.noteStartedAt := by
  unfold setupNote; dsimp only; split <;> rfl

lemma advanceNote_pinv (vol : Nat) (p : PlayerS) (w : PWMS)
    (hlen : 0 < p.length) : Pinv (advanceNote vol p w) := by
  unfold advanceNote
  dsimp only
  split
  · intro _; exact ⟨hlen, by intro h; simp at h⟩
  · rename_i hlt
    intro hp
    refine ⟨by simpa using hlen, ?_⟩
    intro _
    simp only [setupNote_noteIndex, setupNote_length]
    omega

@[simp]
lemma gapSilence_playing (now : Nat) (p : PlayerS) (w : PWMS) :
    ((gapSilence now p w).1).playing = p.playing := by
  unfold gapSilence; dsimp only; split <;> first | rfl | (split <;> rfl)

@[simp]
lemma gapSilence_length (now : Nat) (p : PlayerS) (w : PWMS) :
    ((gapSilence now p w).1).length = p.length := by
  unfold gapSilence; dsimp only; split <;> first | rfl | (split <;> rfl)

@[simp]
lemma gapSilence_noteIndex (now : Nat) (p : PlayerS) (w : PWMS) :
    ((gapSilence now p w).1).noteIndex = p.noteIndex := by
  unfold gapSilence; dsimp only; split <;> first | rfl | (split <;> rfl)

@[simp]
lemma gapSilence_inLoopPause (now : Nat) (p : PlayerS) (w : PWMS) :
    ((gapSilence now p w).1).inLoopPause = p.inLoopPause := by
  unfold gapSilence; dsimp only; split <;> first | rfl | (split <;> rfl)

lemma updatePlayer_pinv (vol now : Nat) (p : PlayerS) (w : PWMS)
    (h : Pinv (p, w)) : Pinv (updatePlayer vol now p w) := by
  unfold updatePlayer
  dsimp only
  split
  · exact h
  · rename_i hg
    have hplay : p.playing = true := by
      cases hpp : p.playing <;> simp [hpp] at hg ⊢
    have hpause : p.inLoopPause = false := by
      cases hpp : p.inLoopPause <;> simp [hpp] at hg ⊢
    obtain ⟨hlen, hidx⟩ := h hplay
    have hidx2 := hidx hpause
    split
    · exact advanceNote_pinv _ _ _ (by simpa using hlen)
    · intro hp
      simp only [gapSilence_playing, gapSilence_length, gapSilence_noteIndex,
        gapSilence_inLoopPause] at hp ⊢
      exact ⟨hlen, fun _ => hidx2⟩

lemma restartPlayer_pinv (vol now : Nat) (p : PlayerS) (w : PWMS)
    (h : Pinv (p, w)) : Pinv (restartPlayer vol now p w) := by
  unfold restartPlayer
  intro hp
  simp only [setupNote_playing] at hp
  obtain ⟨hlen, _⟩ := h hp
  refine ⟨by simpa using hlen, ?_⟩
  intro _
  simp only [setupNote_noteIndex, setupNote_length]
  simpa using hlen

lemma startPlayer_pinv (startTime vol : Nat) (pw : PlayerS × PWMS)
    (h : pw.1.playing = false) : Pinv (startPlayer startTime vol pw) := by
  unfold startPlayer
  dsimp only
  split
  · rename_i hc
    intro _
    refine ⟨by simpa using hc.2, ?_⟩
    intro _
    simp only [setupNote_noteIndex, setupNote_length]
    simpa using hc.2
  · intro hp; rw [h] at hp; cases hp

lemma assignMono_playing (t0 : TrackData) :
    ∀ (ps : List (PlayerS × PWMS)) (i : Nat),
      (∀ pw ∈ ps, pw.1.playing = false) →
      ∀ pw ∈ assignMono t0 i ps, pw.1.playing = false := by
  intro ps
  induction ps with
  | nil => intro i _ pw hpw; simp [assignMono] at hpw
  | cons a rest ih =>
    intro i hps pw hpw
    simp only [assignMono, List.mem_cons] at hpw
    rcases hpw with hpw | hpw
    · subst hpw
      split
      · exact hps a (by simp)
      · exact hps a (by simp)
    · exact ih (i + 1) (fun q hq => hps q (by simp [hq])) pw hpw

lemma assignMulti_playing :
    ∀ (ts : List TrackData) (ps : List (PlayerS × PWMS)),
      (∀ pw ∈ ps, pw.1.playing = false) →
      ∀ pw ∈ assignMulti ts ps, pw.1.playing = false := by
  intro ts
  induction ts with
  | nil =>
    intro ps hps pw hpw
    cases ps with
    | nil => simp [assignMulti] at hpw
    | cons a rest => exact hps pw (by simpa [assignMulti] using hpw)
  | cons t ts ih =>
    intro ps hps pw hpw
    cases ps with
    | nil => simp [assignMulti] at hpw
    | cons a rest =>
      simp only [assignMulti, List.mem_cons] at hpw
      rcases hpw with hpw | hpw
      · subst hpw; exact hps a (by simp)
      · exact ih rest (fun q hq => hps q (by simp [hq])) pw hpw

lemma getD_cases {α : Type} (l : List α) (i : Nat) (d : α) :
    l.getD i d = d ∨ l.getD i d ∈ l := by
  induction l generalizing i with
  | nil => left; rfl
  | cons a rest ih =>
    cases i with
    | zero => right; simp
    | succ n =>
      rcases ih n with h | h
      · left; simpa using h
      · right; simp only [List.getD] at h ⊢
        simp only [List.get?] at h ⊢
        exact List.mem_cons_of_mem a (by simpa using h)

lemma assignTracks_pinv (prev : List (PlayerS × PWMS)) (tracks : List TrackData)
    (startTime vol i : Nat) :
    Pinv ((assignTracks prev tracks startTime vol).getD i (initPlayer, initPWM)) := by
  have hd : Pinv ((initPlayer, initPWM) : PlayerS × PWMS) := by
    intro h; simp [initPlayer] at h
  have hreset : ∀ pw ∈ prev.map (fun pw => (resetPlayer pw.1, pw.2)),
      pw.1.playing = false := by
    intro pw hpw
    simp only [List.mem_map] at hpw
    obtain ⟨q, _, rfl⟩ := hpw
    rfl
  have hmem : ∀ pw ∈ assignTracks prev tracks startTime vol, Pinv pw := by
    intro pw hpw
    unfold assignTracks at hpw
    by_cases h0 : (tracks.filter trackNonEmpty).length = 0
    · simp only [h0, if_true, ite_true] at hpw
      intro hp; rw [hreset pw hpw] at hp; cases hp
    · simp only [h0, if_false, ite_false] at hpw
      rw [List.mem_map] at hpw
      obtain ⟨q, hq, rfl⟩ := hpw
      apply startPlayer_pinv
      by_cases h1 : (tracks.filter trackNonEmpty).length = 1
      · simp only [h1, if_true, ite_true] at hq
        exact assignMono_playing _ _ 0 hreset q hq
      · simp only [h1, if_false, ite_false] at hq
        exact assignMulti_playing _ _ hreset q hq
  rcases getD_cases (assignTracks prev tracks startTime vol) i (initPlayer, initPWM)
    with h | h
  · rw [h]; exact hd
  · exact hmem _ h

lemma preach_pinv (pw : PlayerS × PWMS) (h : PReach pw) : Pinv pw := by
  induction h with
  | assigned prev tracks startTime vol i => exact assignTracks_pinv prev tracks startTime vol i
  | update vol now _ ih => exact updatePlayer_pinv vol now _ _ ih
  | restart vol now _ ih => exact restartPlayer_pinv vol now _ _ ih

lemma rtttlNotes_full (fuel dd oo bpm maxN count : Nat) (l : List Char)
    (h : maxN ≤ count) : rtttlNotes fuel dd oo bpm maxN count l = some [] := by
  cases fuel <;> cases l <;> simp [rtttlNotes, h]

lemma mmlNote_le (fuel oct defLen tempo : Nat) (c : Char) (rest : List Char)
    (n : Nat × Nat) (l4 : List Char)
    (h : mmlNote fuel oct defLen tempo c rest = some (n, l4)) : n.2 ≤ 65535 := by
  unfold mmlNote at h
  dsimp only at h
  split at h
  · cases h
  · split at h
    · cases h
    · rename_i msT l5 _
      injection h with h1
      injection h1 with h2 h3
      subst h2
      dsimp only
      split <;> omega

lemma mmlLoop_le (fuel : Nat) :
    ∀ (oct defLen tempo count maxN : Nat) (l : List Char) (out : List (Nat × Nat)),
      mmlLoop fuel oct defLen tempo count maxN l = some out →
      ∀ x ∈ out, x.2 ≤ 65535 := by
  induction fuel with
  | zero =>
    intro oct defLen tempo count maxN l out h x hx
    simp only [mmlLoop] at h
    cases h; simp at hx
  | succ n ih =>
    intro oct defLen tempo count maxN l out h x hx
    rw [mmlLoop.eq_def] at h
    cases l with
    | nil => cases h; simp at hx
    | cons c rest =>
      dsimp only at h
      split at h
      · cases h; simp at hx
      · split at h
        · exact ih _ _ _ _ _ _ _ h x hx
        · split at h
          · exact ih _ _ _ _ _ _ _ h x hx
          · split at h
            · exact ih _ _ _ _ _ _ _ h x hx
            · split at h
              · exact ih _ _ _ _ _ _ _ h x hx
              · split at h
                · exact ih _ _ _ _ _ _ _ h x hx
                · split at h
                  · exact ih _ _ _ _ _ _ _ h x hx
                  · split at h
                    · -- note/rest branch
                      split at h
                      · cases h
                      · rename_i note l4 hnote
                        split at h
                        · cases h
                        · rename_i out2 hrec
                          cases h
                          rcases List.mem_cons.mp hx with hx | hx
                          · subst hx
                            exact mmlNote_le _ _ _ _ _ _ _ _ hnote
                          · exact ih _ _ _ _ _ _ _ hrec x hx
                    · exact ih _ _ _ _ _ _ _ h x hx

lemma parseMML_le (s : List Char) (maxN track : Nat) (out : List (Nat × Nat))
    (h : parseMML s maxN track = some out) : ∀ x ∈ out, x.2 ≤ 65535 := by
  unfold parseMML at h
  dsimp only at h
  split at h
  · cases h; simp
  · exact mmlLoop_le _ _ _ _ _ _ _ _ h

lemma scanInitTempo_pos (fuel : Nat) :
    ∀ (acc : Nat) (l : List Char), 0 < acc → 0 < scanInitTempo fuel acc l := by
  induction fuel with
  | zero => intro acc l h; simpa [scanInitTempo] using h
  | succ n ih =>
    intro acc l h
    cases l with
    | nil => simpa [scanInitTempo] using h
    | cons c rest =>
      rw [scanInitTempo]
      dsimp only
      split
      · exact h
      · split
        · apply ih
          split <;> omega
        · exact ih _ _ h

lemma pos_ite_fallback (d x : Nat) (hd : 0 < d) : 0 < if x = 0 then d else x := by
  split
  · exact hd
  · exact Nat.pos_of_ne_zero (by assumption)

lemma pos_ite_update (x b : Nat) (hb : 0 < b) : 0 < if 0 < x then x else b := by
  split
  · assumption
  · exact hb

lemma mmlDur_ne_none {t l : Nat} (d : Bool) (ht : 0 < t) (hl : 0 < l) :
    mmlDur t l d ≠ none := by
  unfold mmlDur
  have h : t * l ≠ 0 := Nat.mul_ne_zero ht.ne' hl.ne'
  simp [h]

lemma tieLoop_ne_none (tempo defLen : Nat) (ht : 0 < tempo) (hd : 0 < defLen) :
    ∀ (fuel ms : Nat) (l : List Char), tieLoop fuel tempo defLen ms l ≠ none := by
  intro fuel
  induction fuel with
  | zero => intro ms l; simp [tieLoop]
  | succ n ih =>
    intro ms l
    cases l with
    | nil => simp [tieLoop]
    | cons c r =>
      by_cases hc : c = '&'
      · subst hc
        simp only [tieLoop]
        split
        · split
          · rename_i heq
            exact absurd heq (mmlDur_ne_none _ ht (pos_ite_fallback _ _ hd))
          · exact ih _ _
        · simp
      · simp only [tieLoop]
        rw [if_neg hc]
        simp

lemma mmlNote_ne_none (fuel oct defLen tempo : Nat) (c : Char) (rest : List Char)
    (ht : 0 < tempo) (hd : 0 < defLen) :
    mmlNote fuel oct defLen tempo c rest ≠ none := by
  unfold mmlNote
  dsimp only
  split
  · rename_i heq
    exact absurd heq (mmlDur_ne_none _ ht (pos_ite_fallback _ _ hd))
  · split
    · rename_i heq
      exact absurd heq (tieLoop_ne_none tempo defLen ht hd _ _ _)
    · simp

lemma mmlLoop_ne_none (fuel : Nat) :
    ∀ (oct defLen tempo count maxN : Nat) (l : List Char),
      0 < tempo → 0 < defLen → mmlLoop fuel oct defLen tempo count maxN l ≠ none := by
  induction fuel with
  | zero => intro oct defLen tempo count maxN l _ _; simp [mmlLoop]
  | succ n ih =>
    intro oct defLen tempo count maxN l ht hd
    rw [mmlLoop.eq_def]
    cases l with
    | nil => simp
    | cons c rest =>
      dsimp only
      split
      · simp
      · split
        · exact ih _ _ _ _ _ _ (pos_ite_update _ _ ht) hd
        · split
          · exact ih _ _ _ _ _ _ ht (pos_ite_update _ _ hd)
          · split
            · exact ih _ _ _ _ _ _ ht hd
            · split
              · exact ih _ _ _ _ _ _ ht hd
              · split
                · exact ih _ _ _ _ _ _ ht hd
                · split
                  · exact ih _ _ _ _ _ _ ht hd
                  · split
                    · split
                      · rename_i heq
                        exact absurd heq (mmlNote_ne_none _ _ _ _ _ _ ht hd)
                      · split
                        · rename_i heq
                          exact absurd heq (ih _ _ _ _ _ _ ht hd)
                        · simp
                    · exact ih _ _ _ _ _ _ ht hd

lemma gptGenerateLoop_steps (abort : Nat → Bool) :
    ∀ (tokens : List String) (i : Nat),
      (gptGenerateLoop abort i tokens).2.2 = tokens.length := by
  intro tokens
  induction tokens with
  | nil => intro i; rfl
  | cons t rest ih => intro i; simp [gptGenerateLoop, ih]

lemma gptGenerateLoop_all_aborted (abort : Nat → Bool) :
    ∀ (tokens : List String) (i : Nat), (∀ j, i ≤ j → abort j = true) →
      (gptGenerateLoop abort i tokens).2.1 = [] := by
  intro tokens
  induction tokens with
  | nil => intro i _; rfl
  | cons t rest ih =>
    intro i hall
    simp [gptGenerateLoop, streamCallback, hall i (le_refl i),
      ih (i + 1) (fun j hj => hall j (by omega))]

lemma gptGenerateLoop_take (abort : Nat → Bool)
    (hmono : ∀ i j, i ≤ j → abort i = true → abort j = true) :
    ∀ (tokens : List String) (i k : Nat), abort k = true →
      ∃ m, m ≤ k - i ∧
        (gptGenerateLoop abort i tokens).2.1 = (tokens.take m).map GenMsg.tok := by
  intro tokens
  induction tokens with
  | nil => intro i k _; exact ⟨0, by omega, rfl⟩
  | cons t rest ih =>
    intro i k hk
    by_cases hai : abort i = true
    · refine ⟨0, by omega, ?_⟩
      exact gptGenerateLoop_all_aborted abort (t :: rest) i
        (fun j hj => hmono i j hj hai)
    · have hik : i < k := by
        by_contra hc
        exact hai (hmono k i (by omega) hk)
      obtain ⟨m, hm, hmsgs⟩ := ih (i + 1) k hk
      refine ⟨m + 1, by omega, ?_⟩
      simp [gptGenerateLoop, streamCallback, hai, hmsgs]

end Lemmas

section Claims

/-- C1: the claim says a play command whose song fails to parse performs
no state transition and preserves the invariant that PLAYING implies a
valid parsed current song.  The code violates this: onWsEvent calls
enterState(PLAYING) unconditionally after startSong, so from a fresh
boot (IDLE, currentSongIndex = -1) a play:0 on a zero-note RTTTL song
ends with state PLAYING and currentSongIndex still -1 (and the C
enterState then reads songs[-1].name out of bounds). -/
theorem c1_parse_failure_still_transitions :
    c1Start.st = CState.idle
    ∧ (handlePlay 4 true 1000 c1Start 0).map (fun c => (c.st, c.currentSongIndex))
        = some (CState.playing, -1) :=
  ⟨rfl, by decide⟩

/-- C2 counterexample: the claim says RTTTL parsing halts at the first
invalid character, so on the notes section c,x,c the result would be
the single note before the x.  The code instead skips the x and also
parses the final c: the output has two notes. -/
theorem c2_counterexample :
    parseRTTTL (("t:b=63:c,x,c").toList) 256 = some [(1048, 952), (1048, 952)]
    ∧ parseRTTTL (("t:b=63:c,x,c").toList) 256 ≠ some [(1048, 952)] :=
  ⟨by decide, by decide⟩

/-- C2 (amended): an invalid character in the RTTTL notes section (not
a digit, space, comma, pause letter, or note letter) is skipped,
consuming exactly one character, and parsing continues identically on
the rest; only the end of input or the note-capacity limit halts the
notes loop. -/
theorem c2_invalid_char_skipped (fuel dd oo bpm maxNotes count : Nat) (c : Char)
    (rest : List Char) (h1 : isDig c = false) (h2 : c ≠ ' ') (h3 : c ≠ ',')
    (h4 : c ≠ 'p') (h5 : c ≠ 'P') (h6 : isNoteChar c = false) :
    rtttlNotes (fuel + 1) dd oo bpm maxNotes count (c :: rest) =
      rtttlNotes fuel dd oo bpm maxNotes count rest := by
  by_cases hmc : maxNotes ≤ count
  · rw [rtttlNotes_full _ _ _ _ _ _ _ hmc, rtttlNotes_full _ _ _ _ _ _ _ hmc]
  · have hskip : skipSC (c :: rest) = c :: rest := by
      simp [skipSC, h2, h3]
    have hscan : scanDigits 256 (c :: rest) 0 = (0, c :: rest) := by
      simp [scanDigits, h1]
    simp only [rtttlNotes, hmc, if_false, ite_false, hskip, hscan]
    simp [h4, h5, h6]

/-- C2 witness: the skip equation applied at the concrete invalid
character x followed by the note c. -/
theorem c2_invalid_char_skipped_witness :
    (isDig 'x' = false ∧ 'x' ≠ ' ' ∧ 'x' ≠ ',' ∧ 'x' ≠ 'p' ∧ 'x' ≠ 'P'
      ∧ isNoteChar 'x' = false)
    ∧ rtttlNotes 2 4 6 63 256 0 ['x', 'c'] = rtttlNotes 1 4 6 63 256 0 ['c'] :=
  ⟨by decide, c2_invalid_char_skipped 1 4 6 63 256 0 'x' ['c']
    (by decide) (by decide) (by decide) (by decide) (by decide) (by decide)⟩

/-- C3 counterexample: the claim says every player with playing true has
note_index less than length whenever state is PLAYING.  After one
main-loop tick at t = 100 ms on a two-track song whose first track has
a single 100 ms note, the state is still PLAYING and player 0 has
playing = true but note_index = length (it sits in loop pause waiting
for the second track). -/
theorem c3_counterexample :
    (loopTick 100 c3TwoTrackCtl).st = CState.playing
    ∧ ((loopTick 100 c3TwoTrackCtl).players.getD 0 (initPlayer, initPWM)).1.playing = true
    ∧ ¬ (((loopTick 100 c3TwoTrackCtl).players.getD 0 (initPlayer, initPWM)).1.noteIndex
          < ((loopTick 100 c3TwoTrackCtl).players.getD 0 (initPlayer, initPWM)).1.length) :=
  ⟨by decide, by decide, by decide⟩

/-- C3 (amended): every reachable player state that is active
(playing = true) and not in loop pause has note_index strictly below
length; a finished active track instead sits in loop pause with
note_index = length until the synchronized restart. -/
theorem c3_active_not_paused_in_bounds (pw : PlayerS × PWMS) (h : PReach pw)
    (hp : pw.1.playing = true) (hq : pw.1.inLoopPause = false) :
    pw.1.noteIndex < pw.1.length :=
  ((preach_pinv pw h) hp).2 hq

/-- C3 witness: the bound applied to the concrete player produced by
assignTracks for a one-note single-track song. -/
theorem c3_active_not_paused_in_bounds_witness :
    ((assignTracks initPlayers4 [⟨some [(262, 100)], 1⟩] 0 20).getD 0
        (initPlayer, initPWM)).1.playing = true
    ∧ ((assignTracks initPlayers4 [⟨some [(262, 100)], 1⟩] 0 20).getD 0
        (initPlayer, initPWM)).1.inLoopPause = false
    ∧ ((assignTracks initPlayers4 [⟨some [(262, 100)], 1⟩] 0 20).getD 0
        (initPlayer, initPWM)).1.noteIndex
      < ((assignTracks initPlayers4 [⟨some [(262, 100)], 1⟩] 0 20).getD 0
        (initPlayer, initPWM)).1.length :=
  ⟨by decide, by decide,
    c3_active_not_paused_in_bounds _
      (PReach.assigned initPlayers4 [⟨some [(262, 100)], 1⟩] 0 20 0)
      (by decide) (by decide)⟩

/-- C4 counterexample: the claim says durations saturate at 65535 in
either notation.  In RTTTL the computed duration is truncated to
uint16_t instead: with d=1 and b=1 the rounded division yields 240000
(above 65535), but the emitted note carries 240000 mod 65536 = 43392,
not 65535. -/
theorem c4_counterexample :
    parseRTTTL (("t:d=1,b=1:c").toList) 256 = some [(1048, 43392)]
    ∧ 65535 < specRoundDiv (1 * 1)
    ∧ (43392 : Nat) ≠ 65535 :=
  ⟨by decide, by decide, by decide⟩

/-- C4 (amended): MML durations saturate at 65535 — every note emitted
by parseMML has duration_ms at most 65535, and a tied chain whose sum
exceeds 65535 emits a single note of exactly 65535 with parsing
continuing on subsequent notes (concrete second conjunct).  RTTTL
durations are truncated mod 65536 instead (see the counterexample). -/
theorem c4_mml_saturation :
    (∀ (s : List Char) (maxN track : Nat) (out : List (Nat × Nat)),
      parseMML s maxN track = some out → ∀ x ∈ out, x.2 ≤ 65535)
    ∧ parseMML (("MML@t1c1&c1c240;").toList) 256 0 = some [(262, 65535), (262, 1000)] :=
  ⟨fun s maxN track out h => parseMML_le s maxN track out h, by decide⟩

/-- C4 witness: the saturation bound applied to the concrete tied
input, whose first emitted note is clamped to 65535 and whose second
parses normally. -/
theorem c4_mml_saturation_witness :
    ∀ x ∈ [((262 : Nat), (65535 : Nat)), (262, 1000)], x.2 ≤ 65535 :=
  c4_mml_saturation.1 (("MML@t1c1&c1c240;").toList) 256 0 _ c4_mml_saturation.2

/-- C5 counterexample: the claim says a song with exactly one non-empty
track has that track assigned to buzzers 0, 1, 2.  The code uses
tracks[0] unconditionally in the mono branch, so when the single
non-empty track is track 1 (track 0 empty), player 0 receives the null
track-0 pointer and nothing plays. -/
theorem c5_counterexample :
    ((([⟨none, 0⟩, ⟨some [(262, 100)], 1⟩] : List TrackData).filter trackNonEmpty).length = 1)
    ∧ ((assignTracks initPlayers4 [⟨none, 0⟩, ⟨some [(262, 100)], 1⟩] 0 20).getD 0
        (initPlayer, initPWM)).1.playing = false
    ∧ ((assignTracks initPlayers4 [⟨none, 0⟩, ⟨some [(262, 100)], 1⟩] 0 20).getD 0
        (initPlayer, initPWM)).1.melody = none :=
  ⟨by decide, by decide, by decide⟩

/-- C5 (amended): for a song whose only non-empty track is track 0,
assignTracks gives that track to buzzers 0, 1 and 2 with octave shifts
0, +1 and -1, all three sharing the startTime timestamp, and leaves
buzzer 3 idle; when the single non-empty track has a different index,
the mono branch still copies track 0 and no buzzer plays. -/
theorem c5_single_track_octave_spread (prev : List (PlayerS × PWMS))
    (tracks : List TrackData) (startTime vol : Nat) (m : List (Nat × Nat))
    (hp : prev.length = 4) (h1 : (tracks.filter trackNonEmpty).length = 1)
    (hm : (tracks.headD ⟨none, 0⟩).notes = some m)
    (hl : 0 < (tracks.headD ⟨none, 0⟩).length) :
    (((assignTracks prev tracks startTime vol).getD 0 (initPlayer, initPWM)).1.playing = true
      ∧ ((assignTracks prev tracks startTime vol).getD 0 (initPlayer, initPWM)).1.melody = some m
      ∧ ((assignTracks prev tracks startTime vol).getD 0 (initPlayer, initPWM)).1.length
          = (tracks.headD ⟨none, 0⟩).length
      ∧ ((assignTracks prev tracks startTime vol).getD 0 (initPlayer, initPWM)).1.octaveShift = 0
      ∧ ((assignTracks prev tracks startTime vol).getD 0 (initPlayer, initPWM)).1.noteStartedAt = startTime)
    ∧ (((assignTracks prev tracks startTime vol).getD 1 (initPlayer, initPWM)).1.playing = true
      ∧ ((assignTracks prev tracks startTime vol).getD 1 (initPlayer, initPWM)).1.melody = some m
      ∧ ((assignTracks prev tracks startTime vol).getD 1 (initPlayer, initPWM)).1.octaveShift = 1
      ∧ ((assignTracks prev tracks startTime vol).getD 1 (initPlayer, initPWM)).1.noteStartedAt = startTime)
    ∧ (((assignTracks prev tracks startTime vol).getD 2 (initPlayer, initPWM)).1.playing = true
      ∧ ((assignTracks prev tracks startTime vol).getD 2 (initPlayer, initPWM)).1.melody = some m
      ∧ ((assignTracks prev tracks startTime vol).getD 2 (initPlayer, initPWM)).1.octaveShift = -1
      ∧ ((assignTracks prev tracks startTime vol).getD 2 (initPlayer, initPWM)).1.noteStartedAt = startTime)
    ∧ ((assignTracks prev tracks startTime vol).getD 3 (initPlayer, initPWM)).1.playing = false := by
  cases prev with
  | nil => simp at hp
  | cons p0 t0 =>
  cases t0 with
  | nil => simp at hp
  | cons p1 t1 =>
  cases t1 with
  | nil => simp at hp
  | cons p2 t2 =>
  cases t2 with
  | nil => simp at hp
  | cons p3 t3 =>
  cases t3 with
  | cons p4 t4 => simp at hp
  | nil =>
  simp only [assignTracks, h1]
  norm_num
  simp only [List.headD_eq_head?] at hm hl
  simp [assignMono, startPlayer, hm, hl, monoShift, resetPlayer]

/-- C5 witness: the octave-spread conclusion at a concrete one-track
song starting at t = 7. -/
theorem c5_single_track_octave_spread_witness :
    (((assignTracks initPlayers4 [⟨some [(262, 100)], 1⟩] 7 20).getD 0 (initPlayer, initPWM)).1.playing = true
      ∧ ((assignTracks initPlayers4 [⟨some [(262, 100)], 1⟩] 7 20).getD 0 (initPlayer, initPWM)).1.melody = some [(262, 100)]
      ∧ ((assignTracks initPlayers4 [⟨some [(262, 100)], 1⟩] 7 20).getD 0 (initPlayer, initPWM)).1.length
          = (([⟨some [(262, 100)], 1⟩] : List TrackData).headD ⟨none, 0⟩).length
      ∧ ((assignTracks initPlayers4 [⟨some [(262, 100)], 1⟩] 7 20).getD 0 (initPlayer, initPWM)).1.octaveShift = 0
      ∧ ((assignTracks initPlayers4 [⟨some [(262, 100)], 1⟩] 7 20).getD 0 (initPlayer, initPWM)).1.noteStartedAt = 7)
    ∧ (((assignTracks initPlayers4 [⟨some [(262, 100)], 1⟩] 7 20).getD 1 (initPlayer, initPWM)).1.playing = true
      ∧ ((assignTracks initPlayers4 [⟨some [(262, 100)], 1⟩] 7 20).getD 1 (initPlayer, initPWM)).1.melody = some [(262, 100)]
      ∧ ((assignTracks initPlayers4 [⟨some [(262, 100)], 1⟩] 7 20).getD 1 (initPlayer, initPWM)).1.octaveShift = 1
      ∧ ((assignTracks initPlayers4 [⟨some [(262, 100)], 1⟩] 7 20).getD 1 (initPlayer, initPWM)).1.noteStartedAt = 7)
    ∧ (((assignTracks initPlayers4 [⟨some [(262, 100)], 1⟩] 7 20).getD 2 (initPlayer, initPWM)).1.playing = true
      ∧ ((assignTracks initPlayers4 [⟨some [(262, 100)], 1⟩] 7 20).getD 2 (initPlayer, initPWM)).1.melody = some [(262, 100)]
      ∧ ((assignTracks initPlayers4 [⟨some [(262, 100)], 1⟩] 7 20).getD 2 (initPlayer, initPWM)).1.octaveShift = -1
      ∧ ((assignTracks initPlayers4 [⟨some [(262, 100)], 1⟩] 7 20).getD 2 (initPlayer, initPWM)).1.noteStartedAt = 7)
    ∧ ((assignTracks initPlayers4 [⟨some [(262, 100)], 1⟩] 7 20).getD 3 (initPlayer, initPWM)).1.playing = false :=
  c5_single_track_octave_spread initPlayers4 [⟨some [(262, 100)], 1⟩] 7 20 [(262, 100)]
    (by decide) (by decide) (by decide) (by decide)

/-- C6 counterexample: at D = 20 the claim (D not below 20, so gap is
D/10 clamped into the range from 20 up to but excluding D, giving 20)
disagrees with the code, which suppresses the gap to 0 because the
raised gap reaches the full duration. -/
theorem c6_counterexample :
    (setupNote 20 c6Player initPWM).1.gapDuration = 0
    ∧ max 20 (min (20 / 10) (20 - 1)) = 20
    ∧ (setupNote 20 c6Player initPWM).1.gapDuration ≠ max 20 (min (20 / 10) (20 - 1)) :=
  ⟨by decide, by decide, by decide⟩

/-- C6 (amended): a rest keeps gap 0 and a silent channel; for a
sounding note the gap is D/10 raised to at least 20, suppressed to 0
whenever that reaches D (equivalently whenever D is at most 20, not
only D below 20); for D above 20 the gap equals max(20, D/10) and lies
in the half-open range from 20 up to but excluding D. -/
theorem c6_gap_clamp (vol : Nat) (p : PlayerS) (w : PWMS) (f d : Nat)
    (hm : melodyAt p = (f, d)) :
    (f = 0 → (setupNote vol p w).1.gapDuration = 0 ∧ (setupNote vol p w).2.phaseInc = 0)
    ∧ (0 < f → d ≤ 20 → (setupNote vol p w).1.gapDuration = 0)
    ∧ (0 < f → 20 < d →
        (setupNote vol p w).1.gapDuration = max 20 (d / 10)
        ∧ 20 ≤ (setupNote vol p w).1.gapDuration
        ∧ (setupNote vol p w).1.gapDuration < d) := by
  unfold setupNote
  rw [hm]
  dsimp only
  refine ⟨?_, ?_, ?_⟩
  · intro hf
    subst hf
    simp
  · intro hf hd
    rw [if_pos hf]
    dsimp only
    split_ifs <;> omega
  · intro hf hd
    rw [if_pos hf]
    dsimp only
    rw [Nat.max_def]
    split_ifs <;> constructor <;> try constructor
    all_goals omega

/-- C6 witness: the gap law at a 100 Hz note of 250 ms, giving
gap = max(20, 25) = 25. -/
theorem c6_gap_clamp_witness :
    melodyAt c6PlayerLong = (100, 250)
    ∧ (setupNote 20 c6PlayerLong initPWM).1.gapDuration = max 20 (250 / 10) :=
  ⟨by decide, ((c6_gap_clamp 20 c6PlayerLong initPWM 100 250 (by decide)).2.2
    (by decide) (by decide)).1⟩

/-- C7 counterexample: the claim says the emitted duration is the
rounded division itself.  With d=2 and b=1 the rounded division gives
120000 but the RTTTL parser emits 120000 mod 65536 = 54464 (uint16_t
store), so the emitted duration differs from the claimed formula. -/
theorem c7_counterexample :
    parseRTTTL (("t:d=2,b=1:c").toList) 256 = some [(1048, 54464)]
    ∧ specRoundDiv (1 * 2) = 120000
    ∧ (54464 : Nat) ≠ specRoundDiv (1 * 2) :=
  ⟨by decide, by decide, by decide⟩

/-- C7 (amended): both parsers compute each duration component with the
single rounded division of the specification and the dotted update
(ms*3+1)/2, but the RTTTL result is stored through uint16_t and is the
formula value mod 65536 (before and after dotting), while the MML
component equals the formula exactly (its final sum is clamped
separately, claim C4). -/
theorem c7_rounded_division (b d t l : Nat) (hb : 0 < b) (hd : 0 < d)
    (ht : 0 < t) (hl : 0 < l) :
    rtttlDur b d false = some (specRoundDiv (b * d) % 65536)
    ∧ rtttlDur b d true = some (specDot (specRoundDiv (b * d) % 65536) % 65536)
    ∧ mmlDur t l false = some (specRoundDiv (t * l))
    ∧ mmlDur t l true = some (specDot (specRoundDiv (t * l))) := by
  have hbd : b * d ≠ 0 := Nat.mul_ne_zero hb.ne' hd.ne'
  have htl : t * l ≠ 0 := Nat.mul_ne_zero ht.ne' hl.ne'
  unfold rtttlDur mmlDur specRoundDiv specDot
  simp [hbd, htl]

/-- C7 witness: the component law at b=63, d=4 (RTTTL) and t=120, l=4
(MML). -/
theorem c7_rounded_division_witness :
    rtttlDur 63 4 false = some (specRoundDiv (63 * 4) % 65536)
    ∧ mmlDur 120 4 false = some (specRoundDiv (120 * 4)) :=
  ⟨(c7_rounded_division 63 4 120 4 (by decide) (by decide) (by decide) (by decide)).1,
   (c7_rounded_division 63 4 120 4 (by decide) (by decide) (by decide) (by decide)).2.2.1⟩

/-- C8: for a sounding note the octave shift is applied as the uint16_t
left shift for a positive shift and a right shift for a negative one,
the result is clamped to the range 65..4000 Hz, and the PWM phase
increment is programmed from that clamped frequency, which therefore
always lies in 65..4000. -/
theorem c8_octave_shift_clamped (vol : Nat) (p : PlayerS) (w : PWMS) (f d : Nat)
    (hm : melodyAt p = (f, d)) (hf : 0 < f) :
    (setupNote vol p w).2.phaseInc
        = clampFreq (shiftFreq p.octaveShift f) * 4294967296 / SAMPLE_RATE_HZ
    ∧ 65 ≤ clampFreq (shiftFreq p.octaveShift f)
    ∧ clampFreq (shiftFreq p.octaveShift f) ≤ 4000 := by
  refine ⟨?_, ?_, ?_⟩
  · unfold setupNote
    rw [hm]
    dsimp only
    rw [if_pos hf]
  · unfold clampFreq
    dsimp only
    split_ifs <;> omega
  · unfold clampFreq
    dsimp only
    split_ifs <;> omega

/-- C8 witness: the clamp law at a 262 Hz note under octave shift +1,
giving the in-range frequency 524. -/
theorem c8_octave_shift_clamped_witness :
    melodyAt c8Player = (262, 100)
    ∧ (setupNote 20 c8Player initPWM).2.phaseInc
        = clampFreq (shiftFreq 1 262) * 4294967296 / SAMPLE_RATE_HZ
    ∧ 65 ≤ clampFreq (shiftFreq 1 262)
    ∧ clampFreq (shiftFreq 1 262) ≤ 4000 :=
  ⟨by decide,
    (c8_octave_shift_clamped 20 c8Player initPWM 262 100 (by decide) (by decide)).1,
    (c8_octave_shift_clamped 20 c8Player initPWM 262 100 (by decide) (by decide)).2.1,
    (c8_octave_shift_clamped 20 c8Player initPWM 262 100 (by decide) (by decide)).2.2⟩

/-- C9 counterexample: the claim says an aborted worker terminates
after its current forward step.  With the abort flag already set before
any sampling, a three-token generation still performs all three forward
steps (the generation loop never reads the flag), while correctly
emitting no streaming frames and queueing only gen:start and
gen:err:aborted with no playback. -/
theorem c9_counterexample :
    (gptGenerate (fun _ => true) [("c4"), ("d4"), ("e4")]).2.2 = 3
    ∧ ¬ ((3 : Nat) ≤ 0 + 1)
    ∧ genTask true true (fun _ => true) [("c4"), ("d4"), ("e4")]
        = ([GenMsg.start, GenMsg.errAborted], false) :=
  ⟨rfl, by decide, rfl⟩

/-- C9 (amended): once the abort flag is set (monotone schedule, set at
event k within the run), no streaming frame beyond the first k tokens
is queued, the result is discarded with no playback and
gen:err:aborted is queued — but the generation loop itself never reads
the flag and always performs one forward step per sampled token, so
the worker does not terminate after its current forward step. -/
theorem c9_abort_semantics (abort : Nat → Bool) (tokens : List String)
    (mallocOk : Bool) (k : Nat)
    (hmono : ∀ i j, i ≤ j → abort i = true → abort j = true)
    (hk : abort k = true) (hkn : k ≤ tokens.length) :
    (∃ m, m ≤ k ∧
      genTask true mallocOk abort tokens =
        (GenMsg.start :: ((tokens.take m).map GenMsg.tok ++ [GenMsg.errAborted]), false))
    ∧ (gptGenerate abort tokens).2.2 = tokens.length := by
  have hsteps : (gptGenerate abort tokens).2.2 = tokens.length :=
    gptGenerateLoop_steps abort tokens 0
  have habn : abort ((gptGenerate abort tokens).2.2) = true := by
    rw [hsteps]
    exact hmono k tokens.length hkn hk
  obtain ⟨m, hm, hmsgs⟩ := gptGenerateLoop_take abort hmono tokens 0 k hk
  refine ⟨⟨m, by omega, ?_⟩, hsteps⟩
  unfold genTask
  dsimp only
  rw [if_neg (by simp : ¬ (true = false))]
  rw [if_neg (by simp [habn] :
    ¬ (mallocOk = true ∧ abort (gptGenerate abort tokens).2.2 = false))]
  rw [if_pos habn]
  have h2 : (gptGenerate abort tokens).2.1 = (tokens.take m).map GenMsg.tok := hmsgs
  rw [h2]
  simp

/-- C9 witness: the abort semantics at a two-token run with the flag
set from the start. -/
theorem c9_abort_semantics_witness :
    (∃ m, m ≤ 0 ∧
      genTask true true (fun _ => true) [("a"), ("b")] =
        (GenMsg.start :: ((([("a"), ("b")] : List String).take m).map GenMsg.tok
          ++ [GenMsg.errAborted]), false))
    ∧ (gptGenerate (fun _ => true) [("a"), ("b")]).2.2 = 2 :=
  c9_abort_semantics (fun _ => true) [("a"), ("b")] true 0
    (fun _ _ _ h => h) rfl (by decide)

/-- C10: every division performed by the MML parser has a strictly
positive divisor.  In the embedding a zero divisor is the unique source
of a none result (the mmlDur guard), so parseMML never returns none:
tempo starts at 120, default length at 4, the t and l directives only
overwrite them with positive values, and a zero length denominator
falls back to the default length. -/
theorem c10_no_zero_divisor (s : List Char) (maxNotes track : Nat) :
    (parseMML s maxNotes track).isSome = true := by
  unfold parseMML
  dsimp only
  split
  · rfl
  · simp only [Option.isSome_iff_ne_none]
    exact mmlLoop_ne_none _ _ _ _ _ _ _
      (scanInitTempo_pos _ _ _ (by omega)) (by omega)

end Claims

end MusicBuzzer
